import Mathlib

/-!
Verification of the FGP Fly daemon client (`examples/basic_operations.py`).

The protocol core of the repository is the function `call_daemon`, which
builds a JSON request envelope, connects to a Unix socket, sends the
newline-terminated request, reads the response until a newline byte appears
or the peer closes the stream, and parses the accumulated bytes with
`json.loads`.  This file gives a shallow embedding of that core:

  * `Json` models the Python values handled by the `json` module
    (numeric values are modelled as integers; real-number literals are
    floating point and stay outside the model — no claim touches them);
  * `Json.serialize` models `json.dumps` with its default separators and
    `ensure_ascii` escaping;
  * `json_loads` models `json.loads` (strict mode, fuel-bounded recursion
    mirroring the recursion limit of the reference implementation);
  * `uuid4` models `str(uuid.uuid4())`: a 128-bit draw from the entropy
    source, version/variant masking, lowercase-hex formatting with dashes;
  * `Server`, `readLoopSteps` and `call_daemon` model the transport
    exchange, with fuel making a still-blocked read observable as `none`;
  * `classifyResponse` models how the callers in the file
    (`list_apps` … `__main__`) branch on the returned envelope.
-/

/-- Structured values handled by the `json` module, as used by the client.
Numbers are modelled as integers (see the file comment). -/
inductive Json where
  | null
  | bool (b : Bool)
  | num (n : Int)
  | str (s : String)
  | arr (xs : List Json)
  | obj (fs : List (String × Json))

/-- Python truthiness of a structured value (`bool(x)`): `None`, `False`,
zero and empty containers/strings are falsy. -/
def truthy : Json → Bool
  | .null => false
  | .bool b => b
  | .num n => decide (n ≠ 0)
  | .str s => !s.isEmpty
  | .arr xs => !xs.isEmpty
  | .obj fs => !fs.isEmpty

/-- Lookup in an association list where a later binding wins, matching the
semantics of a Python dict built by `json.loads` (duplicate keys: last
value kept) and of dict construction in general. -/
def lookupLast : List (String × Json) → String → Option Json
  | [], _ => none
  | (k', v) :: fs, k =>
    match lookupLast fs k with
    | some r => some r
    | none => if k' = k then some v else none

/-- Model of Python `d.get(k)` on a parsed JSON value: `some` on a mapping
that has the key, `none` otherwise (`None` in Python). -/
def pyGet (j : Json) (k : String) : Option Json :=
  match j with
  | .obj fs => lookupLast fs k
  | _ => none

/-- Truthiness of the result of `d.get(k)`: Python `None` is falsy. -/
def truthyOpt : Option Json → Bool
  | none => false
  | some j => truthy j

/-- Lowercase hexadecimal digit, as produced by Python for `\uXXXX` escapes
and by `uuid` formatting.  Meaningful for inputs below 16. -/
def hexDigit (n : Nat) : Char :=
  if n < 10 then Char.ofNat (48 + n) else Char.ofNat (87 + n)

/-- Four-digit lowercase hex rendering of a code point, for `\uXXXX`. -/
def hex4 (n : Nat) : String :=
  String.mk [hexDigit (n / 4096 % 16), hexDigit (n / 256 % 16),
             hexDigit (n / 16 % 16), hexDigit (n % 16)]

/-- Model of the character escaping performed by `json.dumps` with its
default `ensure_ascii=True`: printable ASCII other than quote and
backslash is literal, the short escapes cover the usual control
characters, everything else becomes `\uXXXX` (astral code points as a
surrogate pair). -/
def escapeChar (c : Char) : String :=
  if c = Char.ofNat 34 then String.mk [Char.ofNat 92, Char.ofNat 34]
  else if c = Char.ofNat 92 then String.mk [Char.ofNat 92, Char.ofNat 92]
  else if c = Char.ofNat 8 then String.mk [Char.ofNat 92, Char.ofNat 98]
  else if c = Char.ofNat 12 then String.mk [Char.ofNat 92, Char.ofNat 102]
  else if c = Char.ofNat 10 then String.mk [Char.ofNat 92, Char.ofNat 110]
  else if c = Char.ofNat 13 then String.mk [Char.ofNat 92, Char.ofNat 114]
  else if c = Char.ofNat 9 then String.mk [Char.ofNat 92, Char.ofNat 116]
  else if 32 ≤ c.toNat ∧ c.toNat ≤ 126 then String.mk [c]
  else if c.toNat < 65536 then String.mk [Char.ofNat 92, Char.ofNat 117] ++ hex4 c.toNat
  else
    String.mk [Char.ofNat 92, Char.ofNat 117] ++ hex4 (55296 + (c.toNat - 65536) / 1024) ++
    String.mk [Char.ofNat 92, Char.ofNat 117] ++ hex4 (56320 + (c.toNat - 65536) % 1024)

/-- Concatenated escapes of a character sequence. -/
def escapeAll : List Char → String
  | [] => ""
  | c :: cs => escapeChar c ++ escapeAll cs

/-- JSON string literal encoding: quote, escaped characters, quote. -/
def encodeString (s : String) : String :=
  String.mk [Char.ofNat 34] ++ escapeAll s.data ++ String.mk [Char.ofNat 34]

/-- Decimal digit character. Meaningful for inputs below 10. -/
def digitChar10 (n : Nat) : Char := Char.ofNat (48 + n % 10)

/-- Decimal digits of a natural number, least significant first,
fuel-bounded (fuel `n + 1` always suffices). -/
def natToRevDigits : Nat → Nat → List Char
  | 0, _ => []
  | fuel + 1, n =>
    digitChar10 n :: (if n / 10 = 0 then [] else natToRevDigits fuel (n / 10))

/-- Decimal rendering of a natural number. -/
def natToString (n : Nat) : String :=
  String.mk (natToRevDigits (n + 1) n).reverse

/-- Decimal rendering of an integer, as Python prints `int` inside JSON. -/
def intToString (i : Int) : String :=
  if i < 0 then String.mk [Char.ofNat 45] ++ natToString (-i).toNat else natToString i.toNat

mutual
/-- Model of `json.dumps` with the default separators `", "` and `": "`
and `ensure_ascii=True`, emitting object members in insertion order as
Python dicts do. -/
def Json.serialize : Json → String
  | .null => "null"
  | .bool true => "true"
  | .bool false => "false"
  | .num n => intToString n
  | .str s => encodeString s
  | .arr xs => "[" ++ serializeItems xs ++ "]"
  | .obj fs => "\x7b" ++ serializeMembers fs ++ "\x7d"

/-- Comma-separated serialization of array items. -/
def serializeItems : List Json → String
  | [] => ""
  | [x] => Json.serialize x
  | x :: xs => Json.serialize x ++ ", " ++ serializeItems xs

/-- Comma-separated serialization of object members, `"key": value`. -/
def serializeMembers : List (String × Json) → String
  | [] => ""
  | [(k, v)] => encodeString k ++ ": " ++ Json.serialize v
  | (k, v) :: fs => encodeString k ++ ": " ++ Json.serialize v ++ ", " ++ serializeMembers fs
end

/-- Model of the expression `params or \x7b\x7d` at line 25 of the source:
the argument is typed `dict = None`, and a falsy value (absent argument or
empty dict) is replaced by the empty dict. -/
def paramsOrEmpty : Option (List (String × Json)) → Json
  | none => Json.obj []
  | some fs => if fs.isEmpty then Json.obj [] else Json.obj fs

/-- The request envelope dict built at lines 21–26 of the source, in its
insertion order: id, v, method, params. -/
def requestJson (id : String) (method : String)
    (params : Option (List (String × Json))) : Json :=
  Json.obj [("id", Json.str id), ("v", Json.num 1),
            ("method", Json.str method), ("params", paramsOrEmpty params)]

/-- The exact string sent on the socket at line 30:
`json.dumps(request) + "\n"`. -/
def requestLine (id : String) (method : String)
    (params : Option (List (String × Json))) : String :=
  Json.serialize (requestJson id method params) ++ "\n"

/-! ### Model of `json.loads` -/

/-- Whitespace accepted between JSON tokens (`json.decoder` skips exactly
space, tab, newline, carriage return). -/
def isJsonWs (c : Char) : Bool :=
  c = ' ' || c = Char.ofNat 9 || c = Char.ofNat 10 || c = Char.ofNat 13

/-- Drop inter-token whitespace. -/
def skipWs : List Char → List Char
  | [] => []
  | c :: cs => if isJsonWs c then skipWs cs else c :: cs

/-- Numeric value of a hexadecimal digit character, if it is one. -/
def hexVal (c : Char) : Option Nat :=
  if 48 ≤ c.toNat ∧ c.toNat ≤ 57 then some (c.toNat - 48)
  else if 97 ≤ c.toNat ∧ c.toNat ≤ 102 then some (c.toNat - 87)
  else if 65 ≤ c.toNat ∧ c.toNat ≤ 70 then some (c.toNat - 55)
  else none

/-- Read exactly four hex digits (the `XXXX` of a `\uXXXX` escape). -/
def parseHex4 : List Char → Option (Nat × List Char)
  | c1 :: c2 :: c3 :: c4 :: rest =>
    match hexVal c1, hexVal c2, hexVal c3, hexVal c4 with
    | some a, some b, some c, some d => some (a * 4096 + b * 256 + c * 16 + d, rest)
    | _, _, _, _ => none
  | _ => none

/-- Body of a JSON string literal after the opening quote, in strict mode:
raw control characters are rejected, escapes are decoded, `\uXXXX`
surrogate pairs are combined (a lone surrogate is unrepresentable in the
model's characters and rejected).  Returns the decoded characters and the
input remaining after the closing quote. -/
def parseStringBody : Nat → List Char → Option (List Char × List Char)
  | 0, _ => none
  | _ + 1, [] => none
  | fuel + 1, c :: cs =>
    if c = Char.ofNat 34 then some ([], cs)
    else if c = Char.ofNat 92 then
      match cs with
      | [] => none
      | e :: cs2 =>
        if e = Char.ofNat 34 ∨ e = Char.ofNat 92 ∨ e = '/' then
          (parseStringBody fuel cs2).map (fun p => (e :: p.1, p.2))
        else if e = 'b' then
          (parseStringBody fuel cs2).map (fun p => (Char.ofNat 8 :: p.1, p.2))
        else if e = 'f' then
          (parseStringBody fuel cs2).map (fun p => (Char.ofNat 12 :: p.1, p.2))
        else if e = 'n' then
          (parseStringBody fuel cs2).map (fun p => (Char.ofNat 10 :: p.1, p.2))
        else if e = 'r' then
          (parseStringBody fuel cs2).map (fun p => (Char.ofNat 13 :: p.1, p.2))
        else if e = 't' then
          (parseStringBody fuel cs2).map (fun p => (Char.ofNat 9 :: p.1, p.2))
        else if e = 'u' then
          match parseHex4 cs2 with
          | none => none
          | some (n, cs3) =>
            if n < 55296 ∨ 57343 < n then
              (parseStringBody fuel cs3).map (fun p => (Char.ofNat n :: p.1, p.2))
            else if n < 56320 then
              match cs3 with
              | u1 :: u2 :: cs4 =>
                if u1 = Char.ofNat 92 ∧ u2 = 'u' then
                  match parseHex4 cs4 with
                  | some (m, cs5) =>
                    if 56320 ≤ m ∧ m ≤ 57343 then
                      (parseStringBody fuel cs5).map
                        (fun p => (Char.ofNat (65536 + (n - 55296) * 1024 + (m - 56320)) :: p.1, p.2))
                    else none
                  | none => none
                else none
              | _ => none
            else none
        else none
    else if c.toNat < 32 then none
    else (parseStringBody fuel cs).map (fun p => (c :: p.1, p.2))

/-- Longest prefix of decimal digits and the rest. -/
def spanDigits : List Char → List Char × List Char
  | [] => ([], [])
  | c :: cs =>
    if 48 ≤ c.toNat ∧ c.toNat ≤ 57 then
      let p := spanDigits cs
      (c :: p.1, p.2)
    else ([], c :: cs)

/-- Numeric value of a digit string. -/
def digitsToNat (ds : List Char) : Nat :=
  ds.foldl (fun a c => a * 10 + (c.toNat - 48)) 0

/-- Integer literal parse: optional minus, digits without a redundant
leading zero, not followed by a fraction or exponent (real-number literals
are outside the model, see the file comment). -/
def parseIntLit (cs : List Char) : Option (Int × List Char) :=
  let core : List Char → Option (Nat × List Char) := fun l =>
    match spanDigits l with
    | ([], _) => none
    | (d :: ds, rest) =>
      if d = '0' ∧ ds ≠ [] then none
      else
        match rest with
        | r :: _ => if r = '.' ∨ r = 'e' ∨ r = 'E' then none else some (digitsToNat (d :: ds), rest)
        | [] => some (digitsToNat (d :: ds), rest)
  match cs with
  | c :: cs2 =>
    if c = '-' then (core cs2).map (fun p => (-(p.1 : Int), p.2))
    else (core cs).map (fun p => ((p.1 : Int), p.2))
  | [] => none

/-- Check that a literal keyword is a prefix and return the remainder. -/
def expectChars : List Char → List Char → Option (List Char)
  | [], rest => some rest
  | k :: ks, c :: cs => if c = k then expectChars ks cs else none
  | _ :: _, [] => none

mutual
/-- Model of the recursive-descent value parse of `json.loads`.  The fuel
bounds recursion as the reference implementation's recursion limit does;
fuel `length + 1` is always sufficient because every recursive call
consumes at least one character first. -/
def parseValue : Nat → List Char → Option (Json × List Char)
  | 0, _ => none
  | fuel + 1, cs =>
    match skipWs cs with
    | [] => none
    | c :: cs2 =>
      if c = Char.ofNat 123 then parseObjBody fuel cs2
      else if c = '[' then parseArrBody fuel cs2
      else if c = Char.ofNat 34 then
        (parseStringBody fuel cs2).map (fun p => (Json.str (String.mk p.1), p.2))
      else if c = 't' then
        (expectChars ['r', 'u', 'e'] cs2).map (fun r => (Json.bool true, r))
      else if c = 'f' then
        (expectChars ['a', 'l', 's', 'e'] cs2).map (fun r => (Json.bool false, r))
      else if c = 'n' then
        (expectChars ['u', 'l', 'l'] cs2).map (fun r => (Json.null, r))
      else if c = '-' ∨ (48 ≤ c.toNat ∧ c.toNat ≤ 57) then
        (parseIntLit (c :: cs2)).map (fun p => (Json.num p.1, p.2))
      else none

/-- Object tail after the opening brace: empty object or member list. -/
def parseObjBody : Nat → List Char → Option (Json × List Char)
  | 0, _ => none
  | fuel + 1, cs =>
    match skipWs cs with
    | [] => none
    | c :: cs2 =>
      if c = Char.ofNat 125 then some (Json.obj [], cs2)
      else (parseMembers fuel (c :: cs2)).map (fun p => (Json.obj p.1, p.2))

/-- One or more `"key": value` members followed by `,` or the closing
brace. -/
def parseMembers : Nat → List Char → Option (List (String × Json) × List Char)
  | 0, _ => none
  | fuel + 1, cs =>
    match skipWs cs with
    | [] => none
    | c :: cs2 =>
      if c = Char.ofNat 34 then
        match parseStringBody fuel cs2 with
        | none => none
        | some (key, cs3) =>
          match skipWs cs3 with
          | ':' :: cs4 =>
            match parseValue fuel cs4 with
            | none => none
            | some (v, cs5) =>
              match skipWs cs5 with
              | ',' :: cs6 =>
                (parseMembers fuel cs6).map (fun p => ((String.mk key, v) :: p.1, p.2))
              | c7 :: cs7 =>
                if c7 = Char.ofNat 125 then some ([(String.mk key, v)], cs7) else none
              | [] => none
          | _ => none
      else none

/-- Array tail after the opening bracket: empty array or item list. -/
def parseArrBody : Nat → List Char → Option (Json × List Char)
  | 0, _ => none
  | fuel + 1, cs =>
    match skipWs cs with
    | [] => none
    | c :: cs2 =>
      if c = ']' then some (Json.arr [], cs2)
      else (parseItems fuel (c :: cs2)).map (fun p => (Json.arr p.1, p.2))

/-- One or more array items followed by `,` or the closing bracket. -/
def parseItems : Nat → List Char → Option (List Json × List Char)
  | 0, _ => none
  | fuel + 1, cs =>
    match parseValue fuel cs with
    | none => none
    | some (v, cs2) =>
      match skipWs cs2 with
      | ',' :: cs3 => (parseItems fuel cs3).map (fun p => (v :: p.1, p.2))
      | ']' :: cs3 => some ([v], cs3)
      | _ => none
end

/-- Model of `json.loads`: parse one value and require that only
whitespace follows; any failure is the model of `json.JSONDecodeError`. -/
def json_loads (s : String) : Option Json :=
  match parseValue (2 * s.length + 2) s.data with
  | some (j, rest) => if skipWs rest = [] then some j else none
  | none => none

/-- Characters removed by Python `str.strip()` with no argument (the ASCII
whitespace characters; exotic Unicode spaces do not occur on this wire). -/
def isStripWs (c : Char) : Bool :=
  c = ' ' || c = Char.ofNat 9 || c = Char.ofNat 10 || c = Char.ofNat 13 ||
  c = Char.ofNat 11 || c = Char.ofNat 12

/-- Model of `response.decode().strip()` at line 41 (UTF-8 decoding is the
identity at the model's string level). -/
def pyStrip (s : String) : String :=
  String.mk (((s.data.dropWhile isStripWs).reverse.dropWhile isStripWs).reverse)

/-! ### Model of the transport exchange (lines 28–41 of the source) -/

/-- Failure kinds of one call, following the error taxonomy the exceptions
of the source realize: `unavailable` is `ConnectionRefusedError` or
`FileNotFoundError` from `sock.connect` when no process listens at the
socket path, `transport` is an `OSError` during send or receive (the
model's receive is total, so this constructor is never produced — it
exists to state distinguishability), `malformed` is `json.JSONDecodeError`
from `json.loads`. -/
inductive DaemonError where
  | unavailable
  | transport
  | malformed

/-- The peer of one call: whether a daemon process is listening at the
socket path, and the successive results of `sock.recv(4096)` (the empty
string models a closed stream, as an empty `bytes` from `recv` does). -/
structure Server where
  listening : Bool
  recv : Nat → String

/-- A server that delivers one chunk and then closes the stream. -/
def oneChunk (s : String) : Nat → String :=
  fun i => if i = 0 then s else ""

/-- Whether the accumulated buffer contains a newline byte
(`b"\n" in response` at line 38). -/
def hasNL (s : String) : Bool :=
  s.data.any (fun c => c = Char.ofNat 10)

/-- The read loop at lines 32–39: accumulate chunks, stop on a closed
stream or once the buffer contains a newline.  Fuel makes a read that is
still blocked observable as `none` (the loop has not returned yet). -/
def readLoopSteps (recv : Nat → String) : Nat → Nat → String → Option String
  | 0, _, _ => none
  | fuel + 1, i, acc =>
    let c := recv i
    if c = "" then some acc
    else
      let acc2 := acc ++ c
      if hasNL acc2 then some acc2
      else readLoopSteps recv fuel (i + 1) acc2

/-- Observable effects of one completed `call_daemon` invocation: the
bytes written to the channel (none when the connect failed), the outcome
(parsed envelope or error), and whether the socket ended closed. -/
structure CallTrace where
  sent : Option String
  outcome : Except DaemonError Json
  sockClosed : Bool

/-- Model of `call_daemon` (lines 19–41).  The `with socket.socket(...)`
block closes the socket on every exit path, including a failing
`connect` and a failing `json.loads`; `none` means the call has not
returned within `fuel` receive steps (still blocked in the read loop, the
socket still open). -/
def call_daemon (srv : Server) (id : String) (method : String)
    (params : Option (List (String × Json))) (fuel : Nat) : Option CallTrace :=
  let line := requestLine id method params
  if srv.listening = false then
    some { sent := none, outcome := Except.error DaemonError.unavailable, sockClosed := true }
  else
    match readLoopSteps srv.recv fuel 0 "" with
    | none => none
    | some buf =>
      match json_loads (pyStrip buf) with
      | none =>
        some { sent := some line, outcome := Except.error DaemonError.malformed,
               sockClosed := true }
      | some env =>
        some { sent := some line, outcome := Except.ok env, sockClosed := true }

/-- How the calling code consumes a call's outcome. -/
inductive InvokeOutcome where
  | success (result : Option Json)
  | opFailure (err : Option Json)
  | protocolFailure (e : DaemonError)

/-- Model of the caller-side branch every consumer in the file performs
(`list_apps` lines 51–63 and the `__main__` health check): a raised
protocol error stays a protocol failure; otherwise `result.get("ok")`
truthy selects the success path carrying `result.get("result")`, and a
falsy `ok` selects the error path carrying `result.get("error")`. -/
def classifyResponse : Except DaemonError Json → InvokeOutcome
  | .error e => .protocolFailure e
  | .ok env =>
    if truthyOpt (pyGet env "ok") then .success (pyGet env "result")
    else .opFailure (pyGet env "error")

/-! ### Model of `str(uuid.uuid4())` (line 22 of the source) -/

/-- Version masking performed by the `uuid.UUID` constructor on the 16
random bytes of `uuid4`: bits 76–79 of the 128-bit integer (the high
nibble of `time_hi_version`) are forced to `0100`. -/
def maskVersion (x : Nat) : Nat := x % 2 ^ 76 + 4 * 2 ^ 76 + x / 2 ^ 80 * 2 ^ 80

/-- Variant masking: bits 62–63 forced to `10`. -/
def maskVariant (y : Nat) : Nat := y % 2 ^ 62 + 2 * 2 ^ 62 + y / 2 ^ 64 * 2 ^ 64

/-- The masked 128-bit UUID integer obtained from the random draw `r`. -/
def maskUUID (r : Nat) : Nat := maskVariant (maskVersion (r % 2 ^ 128))

/-- Hexadecimal digits of a number, least significant first, at fixed
width (fuel many digits). -/
def toHexRev : Nat → Nat → List Char
  | 0, _ => []
  | fuel + 1, n => hexDigit (n % 16) :: toHexRev fuel (n / 16)

/-- The 32 lowercase hex characters of a 128-bit integer, most significant
first, as `UUID.__str__` renders `self.int`. -/
def hex32chars (n : Nat) : List Char := (toHexRev 32 n).reverse

/-- Dash insertion of `UUID.__str__`: groups of 8, 4, 4, 4 and 12 hex
digits. -/
def uuidFormat (l : List Char) : List Char :=
  l.take 8 ++ '-' :: ((l.drop 8).take 4 ++ '-' :: ((l.drop 12).take 4 ++ '-' ::
    ((l.drop 16).take 4 ++ '-' :: l.drop 20)))

/-- Model of `str(uuid.uuid4())` as a function of the 128-bit value drawn
from the entropy source: masking, hex rendering, dashes. -/
def uuid4 (r : Nat) : String :=
  String.mk (uuidFormat (hex32chars (maskUUID r)))

/-- The correlation identifier generated by the i-th sequential call of a
client process whose entropy source delivers `e 0, e 1, …`. -/
def nthCallId (e : Nat → Nat) (i : Nat) : String := uuid4 (e i)

/-- Inverse of the dash insertion of `uuidFormat` on 32-digit inputs,
used to prove that formatting is injective. -/
def uuidUnformat (l : List Char) : List Char :=
  l.take 8 ++ ((l.drop 9).take 4 ++ ((l.drop 14).take 4 ++ ((l.drop 19).take 4 ++ l.drop 24)))

/-! ### Sanity evaluations of the models on concrete data -/

example : Json.serialize (requestJson "abc" "health" none) =
    "\x7b\"id\": \"abc\", \"v\": 1, \"method\": \"health\", \"params\": \x7b\x7d\x7d" := by
  rfl

example : json_loads "\x7b\"ok\": true, \"result\": \x7b\"apps\": []\x7d\x7d" =
    some (Json.obj [("ok", Json.bool true), ("result", Json.obj [("apps", Json.arr [])])]) := by
  rfl

example : json_loads (pyStrip " \x7b\"ok\": false, \"error\": \"not found\"\x7d\n") =
    some (Json.obj [("ok", Json.bool false), ("error", Json.str "not found")]) := by
  rfl

example : json_loads "" = none := rfl
example : json_loads "\x7b\"x\": 1" = none := rfl
example : json_loads "01" = none := rfl
example : json_loads "[1, -25, \"a\\n\", null, \x7b\x7d]" =
    some (Json.arr [Json.num 1, Json.num (-25), Json.str (String.mk ['a', Char.ofNat 10]),
                    Json.null, Json.obj []]) := rfl

example : uuid4 0 = "00000000-0000-4000-8000-000000000000" := rfl
example : uuid4 (2 ^ 128 - 1) = "ffffffff-ffff-4fff-bfff-ffffffffffff" := rfl

/-! ### The serializer never emits a newline character

`json.dumps` escapes every control character and `ensure_ascii` escapes
everything beyond printable ASCII, so the single `"\n"` appended at line
30 of the source is the only newline byte of a request record. -/

theorem hexDigit_mod16_ne_nl (n : Nat) : hexDigit (n % 16) ≠ Char.ofNat 10 :=
  (by decide : ∀ m : Fin 16, hexDigit m.val ≠ Char.ofNat 10) ⟨n % 16, Nat.mod_lt n (by norm_num)⟩

theorem nl_not_mem_hex4 (n : Nat) : Char.ofNat 10 ∉ (hex4 n).data := by
  simp only [hex4, List.mem_cons]
  rintro (h | h | h | h | h) <;>
    first
      | exact hexDigit_mod16_ne_nl _ h.symm
      | simp_all

theorem nl_not_mem_escapeChar (c : Char) : Char.ofNat 10 ∉ (escapeChar c).data := by
  unfold escapeChar
  split_ifs with h1 h2 h3 h4 h5 h6 h7 h8 h9
  · decide
  · decide
  · decide
  · decide
  · decide
  · decide
  · decide
  · intro hm
    simp only [List.mem_singleton] at hm
    rw [← hm] at h8
    revert h8
    decide
  · simp only [String.data_append, List.mem_append]
    rintro (h | h)
    · revert h; decide
    · exact nl_not_mem_hex4 _ h
  · simp only [String.data_append, List.mem_append]
    rintro (((h | h) | h) | h)
    · revert h; decide
    · exact nl_not_mem_hex4 _ h
    · revert h; decide
    · exact nl_not_mem_hex4 _ h

theorem nl_not_mem_escapeAll : ∀ l : List Char, Char.ofNat 10 ∉ (escapeAll l).data := by
  intro l
  induction l with
  | nil => simp [escapeAll]
  | cons c cs ih =>
    simp only [escapeAll, String.data_append, List.mem_append]
    rintro (h | h)
    · exact nl_not_mem_escapeChar c h
    · exact ih h

theorem nl_not_mem_encodeString (s : String) : Char.ofNat 10 ∉ (encodeString s).data := by
  simp only [encodeString, String.data_append, List.mem_append]
  rintro ((h | h) | h)
  · revert h; decide
  · exact nl_not_mem_escapeAll _ h
  · revert h; decide

theorem digitChar10_ne_nl (n : Nat) : digitChar10 n ≠ Char.ofNat 10 :=
  (by decide : ∀ m : Fin 10, Char.ofNat (48 + m.val) ≠ Char.ofNat 10) ⟨n % 10, Nat.mod_lt n (by norm_num)⟩

theorem nl_not_mem_natToRevDigits :
    ∀ fuel n : Nat, Char.ofNat 10 ∉ natToRevDigits fuel n := by
  intro fuel
  induction fuel with
  | zero => intro n; simp [natToRevDigits]
  | succ f ih =>
    intro n
    simp only [natToRevDigits, List.mem_cons]
    rintro (h | h)
    · exact digitChar10_ne_nl n h.symm
    · split at h
      · simp at h
      · exact ih _ h

theorem nl_not_mem_natToString (n : Nat) : Char.ofNat 10 ∉ (natToString n).data := by
  simp only [natToString, List.mem_reverse]
  exact nl_not_mem_natToRevDigits _ n

theorem nl_not_mem_intToString (i : Int) : Char.ofNat 10 ∉ (intToString i).data := by
  unfold intToString
  split
  · simp only [String.data_append, List.mem_append]
    rintro (h | h)
    · revert h; decide
    · exact nl_not_mem_natToString _ h
  · exact nl_not_mem_natToString _

theorem nl_not_mem_serialize (j : Json) : Char.ofNat 10 ∉ (Json.serialize j).data := by
  refine Json.serialize.induct (fun j => Char.ofNat 10 ∉ (Json.serialize j).data)
    (fun fs => Char.ofNat 10 ∉ (serializeMembers fs).data)
    (fun xs => Char.ofNat 10 ∉ (serializeItems xs).data)
    (by decide) (by decide) (by decide) ?_ ?_ ?_ ?_ (by simp [serializeItems])
    ?_ ?_ (by simp [serializeMembers]) ?_ ?_ j
  · intro n
    simpa only [Json.serialize] using nl_not_mem_intToString n
  · intro s
    simpa only [Json.serialize] using nl_not_mem_encodeString s
  · intro xs ih
    simp only [Json.serialize, String.data_append, List.mem_append]
    rintro ((h | h) | h)
    · revert h; decide
    · exact ih h
    · revert h; decide
  · intro fs ih
    simp only [Json.serialize, String.data_append, List.mem_append]
    rintro ((h | h) | h)
    · revert h; decide
    · exact ih h
    · revert h; decide
  · intro x ih
    simpa only [serializeItems] using ih
  · intro x xs hne ih ihs
    rcases xs with _ | ⟨y, ys⟩
    · exact absurd rfl hne
    · simp only [serializeItems, String.data_append, List.mem_append]
      rintro ((h | h) | h)
      · exact ih h
      · revert h; decide
      · exact ihs h
  · intro k v ih
    simp only [serializeMembers, String.data_append, List.mem_append]
    rintro ((h | h) | h)
    · exact nl_not_mem_encodeString k h
    · revert h; decide
    · exact ih h
  · intro k v fs hne ih ihm
    rcases fs with _ | ⟨p, ps⟩
    · exact absurd rfl hne
    · simp only [serializeMembers, String.data_append, List.mem_append]
      rintro ((((h | h) | h) | h) | h)
      · exact nl_not_mem_encodeString k h
      · revert h; decide
      · exact ih h
      · revert h; decide
      · exact ihm h

/-! ### Read-loop and call lemmas -/

theorem empty_append_str (s : String) : "" ++ s = s := by
  apply String.ext
  simp [String.data_append]

theorem hasNL_append (a b : String) : hasNL (a ++ b) = (hasNL a || hasNL b) := by
  simp [hasNL, String.data_append, List.any_append]

/-- A single delivered chunk followed by a closed stream is read back
whole, whether or not it contains a newline. -/
theorem readLoopSteps_oneChunk (s : String) (fuel : Nat) (h : 2 ≤ fuel) :
    readLoopSteps (oneChunk s) fuel 0 "" = some s := by
  obtain ⟨f, rfl⟩ : ∃ f, fuel = f + 2 := ⟨fuel - 2, by omega⟩
  by_cases hs : s = ""
  · subst hs
    rw [readLoopSteps]
    simp [oneChunk]
  · by_cases hn : hasNL s = true
    · rw [readLoopSteps]
      simp [oneChunk, hs, empty_append_str, hn]
    · rw [readLoopSteps]
      simp only [oneChunk, reduceIte, hs, if_false, empty_append_str, hn]
      rw [readLoopSteps]
      simp [oneChunk]

/-- If the stream eventually closes or eventually delivers a chunk that
contains a newline, the read loop returns within bounded fuel. -/
theorem readLoop_reaches (recv : Nat → String) :
    ∀ n i acc, (recv (i + n) = "" ∨ hasNL (recv (i + n)) = true) →
      ∃ out, readLoopSteps recv (n + 1) i acc = some out := by
  intro n
  induction n with
  | zero =>
    intro i acc h
    rw [Nat.add_zero] at h
    rw [readLoopSteps]
    by_cases h0 : recv i = ""
    · rw [if_pos h0]
      exact ⟨acc, rfl⟩
    · rw [if_neg h0]
      show ∃ out, (if hasNL (acc ++ recv i) = true then some (acc ++ recv i)
          else readLoopSteps recv 0 (i + 1) (acc ++ recv i)) = some out
      have hn : hasNL (acc ++ recv i) = true := by
        rcases h with h | h
        · exact absurd h h0
        · rw [hasNL_append, h, Bool.or_true]
      rw [if_pos hn]
      exact ⟨_, rfl⟩
  | succ n ih =>
    intro i acc h
    rw [readLoopSteps]
    by_cases h0 : recv i = ""
    · rw [if_pos h0]
      exact ⟨acc, rfl⟩
    · rw [if_neg h0]
      show ∃ out, (if hasNL (acc ++ recv i) = true then some (acc ++ recv i)
          else readLoopSteps recv (n + 1) (i + 1) (acc ++ recv i)) = some out
      by_cases hn : hasNL (acc ++ recv i) = true
      · rw [if_pos hn]
        exact ⟨_, rfl⟩
      · rw [if_neg hn]
        apply ih
        have heq : i + 1 + n = i + (n + 1) := by omega
        rw [heq]
        exact h

/-- Whatever the read and parse produce, a completed call sent exactly the
request line (the request is fully built before the socket is used). -/
theorem call_daemon_sent (srv : Server) (id method : String)
    (params : Option (List (String × Json))) (fuel : Nat) (t : CallTrace)
    (hl : srv.listening = true)
    (hc : call_daemon srv id method params fuel = some t) :
    t.sent = some (requestLine id method params) := by
  unfold call_daemon at hc
  rw [if_neg (by simp [hl])] at hc
  rcases hrl : readLoopSteps srv.recv fuel 0 "" with _ | buf
  · simp only [hrl] at hc
    exact Option.noConfusion hc
  · simp only [hrl] at hc
    rcases hj : json_loads (pyStrip buf) with _ | env <;> simp only [hj] at hc <;>
      cases hc <;> rfl

/-- A completed call whose buffer parses returns the parsed envelope. -/
theorem call_daemon_ok (srv : Server) (id method : String)
    (params : Option (List (String × Json))) (fuel : Nat) (buf : String) (env : Json)
    (hl : srv.listening = true)
    (hr : readLoopSteps srv.recv fuel 0 "" = some buf)
    (hj : json_loads (pyStrip buf) = some env) :
    call_daemon srv id method params fuel =
      some ⟨some (requestLine id method params), Except.ok env, true⟩ := by
  unfold call_daemon
  rw [if_neg (by simp [hl])]
  simp only [hr, hj]

/-- A completed call whose buffer does not parse fails with the model of
`json.JSONDecodeError`. -/
theorem call_daemon_malformed (srv : Server) (id method : String)
    (params : Option (List (String × Json))) (fuel : Nat) (buf : String)
    (hl : srv.listening = true)
    (hr : readLoopSteps srv.recv fuel 0 "" = some buf)
    (hj : json_loads (pyStrip buf) = none) :
    call_daemon srv id method params fuel =
      some ⟨some (requestLine id method params), Except.error DaemonError.malformed, true⟩ := by
  unfold call_daemon
  rw [if_neg (by simp [hl])]
  simp only [hr, hj]

/-- The argument `some fs` reaches the envelope as the mapping `fs` (for
an empty `fs`, `params or` replaces it by an equal empty mapping). -/
theorem paramsOrEmpty_some (fs : List (String × Json)) :
    paramsOrEmpty (some fs) = Json.obj fs := by
  show (if fs.isEmpty = true then Json.obj [] else Json.obj fs) = Json.obj fs
  by_cases h : fs.isEmpty = true
  · rw [if_pos h, List.isEmpty_iff.mp h]
  · rw [if_neg h]

/-! ### Injectivity of the uuid rendering on masked draws -/

theorem maskUUID_lt (r : Nat) : maskUUID r < 2 ^ 128 := by
  unfold maskUUID maskVariant maskVersion
  omega

theorem toHexRev_length : ∀ fuel n : Nat, (toHexRev fuel n).length = fuel := by
  intro fuel
  induction fuel with
  | zero => intro n; rfl
  | succ f ih => intro n; simp [toHexRev, ih]

theorem hex32chars_length (n : Nat) : (hex32chars n).length = 32 := by
  simp [hex32chars, toHexRev_length]

theorem toHexRev_inj : ∀ fuel a b : Nat, a < 16 ^ fuel → b < 16 ^ fuel →
    toHexRev fuel a = toHexRev fuel b → a = b := by
  intro fuel
  induction fuel with
  | zero =>
    intro a b ha hb _
    simp only [pow_zero, Nat.lt_one_iff] at ha hb
    rw [ha, hb]
  | succ f ih =>
    intro a b ha hb h
    simp only [toHexRev] at h
    injection h with h1 h2
    have hmod : a % 16 = b % 16 := by
      have hfin := (by decide : ∀ x y : Fin 16, hexDigit x.val = hexDigit y.val → x = y)
        ⟨a % 16, Nat.mod_lt a (by norm_num)⟩ ⟨b % 16, Nat.mod_lt b (by norm_num)⟩ h1
      exact congrArg Fin.val hfin
    have hdiv : a / 16 = b / 16 := by
      apply ih
      · rw [Nat.div_lt_iff_lt_mul (by norm_num : (0:Nat) < 16)]
        rw [pow_succ] at ha
        exact ha
      · rw [Nat.div_lt_iff_lt_mul (by norm_num : (0:Nat) < 16)]
        rw [pow_succ] at hb
        exact hb
      · exact h2
    omega

theorem uuidUnformat_uuidFormat (l : List Char) (h : l.length = 32) :
    uuidUnformat (uuidFormat l) = l := by
  have hA : (l.take 8).length = 8 := by
    rw [List.length_take, h]
    decide
  have hB : ((l.drop 8).take 4).length = 4 := by
    rw [List.length_take, List.length_drop, h]
    decide
  have hC : ((l.drop 12).take 4).length = 4 := by
    rw [List.length_take, List.length_drop, h]
    decide
  have hD : ((l.drop 16).take 4).length = 4 := by
    rw [List.length_take, List.length_drop, h]
    decide
  have hform : uuidFormat l =
      (l.take 8 ++ ['-']) ++ (((l.drop 8).take 4 ++ ['-']) ++ (((l.drop 12).take 4 ++ ['-']) ++
        (((l.drop 16).take 4 ++ ['-']) ++ l.drop 20))) := by
    unfold uuidFormat
    rw [List.append_cons (l.take 8) '-'
        ((l.drop 8).take 4 ++ '-' :: ((l.drop 12).take 4 ++ '-' ::
          ((l.drop 16).take 4 ++ '-' :: l.drop 20)))]
    rw [List.append_cons ((l.drop 8).take 4) '-'
        ((l.drop 12).take 4 ++ '-' :: ((l.drop 16).take 4 ++ '-' :: l.drop 20))]
    rw [List.append_cons ((l.drop 12).take 4) '-'
        ((l.drop 16).take 4 ++ '-' :: l.drop 20)]
    rw [List.append_cons ((l.drop 16).take 4) '-' (l.drop 20)]
  have h9 : (l.take 8 ++ ['-']).length = 9 := by
    simp [List.length_append, hA]
  have h14 : ((l.take 8 ++ ['-']) ++ ((l.drop 8).take 4 ++ ['-'])).length = 14 := by
    simp [List.length_append, hA, hB]
  have h19 : (((l.take 8 ++ ['-']) ++ ((l.drop 8).take 4 ++ ['-'])) ++
      ((l.drop 12).take 4 ++ ['-'])).length = 19 := by
    simp [List.length_append, hA, hB, hC]
  have h24 : ((((l.take 8 ++ ['-']) ++ ((l.drop 8).take 4 ++ ['-'])) ++
      ((l.drop 12).take 4 ++ ['-'])) ++ ((l.drop 16).take 4 ++ ['-'])).length = 24 := by
    simp [List.length_append, hA, hB, hC, hD]
  have p1 : (uuidFormat l).take 8 = l.take 8 := by
    unfold uuidFormat
    exact List.take_left' hA
  have p2 : ((uuidFormat l).drop 9).take 4 = (l.drop 8).take 4 := by
    rw [hform, List.drop_left' h9]
    rw [List.append_assoc, List.take_left' hB]
  have p3 : ((uuidFormat l).drop 14).take 4 = (l.drop 12).take 4 := by
    rw [hform, ← List.append_assoc, List.drop_left' h14]
    rw [List.append_assoc, List.take_left' hC]
  have p4 : ((uuidFormat l).drop 19).take 4 = (l.drop 16).take 4 := by
    rw [hform, ← List.append_assoc, ← List.append_assoc, List.drop_left' h19]
    rw [List.append_assoc, List.take_left' hD]
  have p5 : (uuidFormat l).drop 24 = l.drop 20 := by
    rw [hform, ← List.append_assoc, ← List.append_assoc, ← List.append_assoc,
        List.drop_left' h24]
  unfold uuidUnformat
  rw [p1, p2, p3, p4, p5]
  have e4 : (l.drop 16).take 4 ++ l.drop 20 = l.drop 16 := by
    have : (l.drop 16).drop 4 = l.drop 20 := by
      rw [List.drop_drop]
    rw [← this, List.take_append_drop]
  rw [e4]
  have e3 : (l.drop 12).take 4 ++ l.drop 16 = l.drop 12 := by
    have : (l.drop 12).drop 4 = l.drop 16 := by
      rw [List.drop_drop]
    rw [← this, List.take_append_drop]
  rw [e3]
  have e2 : (l.drop 8).take 4 ++ l.drop 12 = l.drop 8 := by
    have : (l.drop 8).drop 4 = l.drop 12 := by
      rw [List.drop_drop]
    rw [← this, List.take_append_drop]
  rw [e2]
  exact List.take_append_drop 8 l

/-- Two random draws produce the same uuid string only when they coincide
after version/variant masking. -/
theorem uuid4_eq_imp_mask_eq (a b : Nat) (h : uuid4 a = uuid4 b) :
    maskUUID a = maskUUID b := by
  have hd : uuidFormat (hex32chars (maskUUID a)) = uuidFormat (hex32chars (maskUUID b)) :=
    congrArg String.data h
  have hu := congrArg uuidUnformat hd
  rw [uuidUnformat_uuidFormat _ (hex32chars_length _),
      uuidUnformat_uuidFormat _ (hex32chars_length _)] at hu
  have hrev : toHexRev 32 (maskUUID a) = toHexRev 32 (maskUUID b) := by
    have := congrArg List.reverse hu
    simpa [hex32chars] using this
  have hlt : (16:Nat) ^ 32 = 2 ^ 128 := by norm_num
  exact toHexRev_inj 32 _ _ (by rw [hlt]; exact maskUUID_lt a)
    (by rw [hlt]; exact maskUUID_lt b) hrev

/-! ### Claim theorems -/

/-- C1: for every method string and parameter mapping, the bytes a
completed call writes to the channel are exactly the JSON serialization of
the object with fields `id` (the generated identifier), `v = 1`, `method`
and `params` (in that insertion order), followed by exactly one trailing
newline — the serialized record itself contains no newline character. -/
theorem spec_c1_request_bytes (srv : Server) (id method : String)
    (fs : List (String × Json)) (fuel : Nat) (t : CallTrace)
    (hl : srv.listening = true)
    (hc : call_daemon srv id method (some fs) fuel = some t) :
    t.sent = some (Json.serialize (Json.obj [("id", Json.str id), ("v", Json.num 1),
      ("method", Json.str method), ("params", Json.obj fs)]) ++ "\n") ∧
    Char.ofNat 10 ∉ (Json.serialize (Json.obj [("id", Json.str id), ("v", Json.num 1),
      ("method", Json.str method), ("params", Json.obj fs)])).data := by
  have hs := call_daemon_sent srv id method (some fs) fuel t hl hc
  constructor
  · rw [hs]
    unfold requestLine requestJson
    rw [paramsOrEmpty_some]
  · exact nl_not_mem_serialize _

/-- Witness for C1 at a concrete server, method and parameter mapping. -/
theorem spec_c1_request_bytes_witness :
    call_daemon ⟨true, oneChunk "null\n"⟩ "abc" "health" (some [("app", Json.str "demo")]) 2 =
      some ⟨some (requestLine "abc" "health" (some [("app", Json.str "demo")])),
            Except.ok Json.null, true⟩ ∧
    ((⟨some (requestLine "abc" "health" (some [("app", Json.str "demo")])),
        Except.ok Json.null, true⟩ : CallTrace).sent =
      some (Json.serialize (Json.obj [("id", Json.str "abc"), ("v", Json.num 1),
        ("method", Json.str "health"), ("params", Json.obj [("app", Json.str "demo")])]) ++ "\n") ∧
     Char.ofNat 10 ∉ (Json.serialize (Json.obj [("id", Json.str "abc"), ("v", Json.num 1),
        ("method", Json.str "health"), ("params", Json.obj [("app", Json.str "demo")])])).data) :=
  ⟨rfl, spec_c1_request_bytes ⟨true, oneChunk "null\n"⟩ "abc" "health"
    [("app", Json.str "demo")] 2 _ rfl rfl⟩

/-- C9: a call with the `params` argument omitted (`None`) transmits an
envelope whose `params` field is the empty mapping, and every transmitted
envelope has a `params` field that is a mapping, never null or absent. -/
theorem spec_c9_default_params (srv : Server) (id method : String) (fuel : Nat) (t : CallTrace)
    (hl : srv.listening = true)
    (hc : call_daemon srv id method none fuel = some t) :
    t.sent = some (Json.serialize (requestJson id method none) ++ "\n") ∧
    pyGet (requestJson id method none) "params" = some (Json.obj []) ∧
    ∀ p, ∃ fs, pyGet (requestJson id method p) "params" = some (Json.obj fs) := by
  refine ⟨call_daemon_sent srv id method none fuel t hl hc, rfl, ?_⟩
  intro p
  cases p with
  | none => exact ⟨[], rfl⟩
  | some fs =>
    refine ⟨fs, ?_⟩
    show lookupLast [("id", Json.str id), ("v", Json.num 1), ("method", Json.str method),
      ("params", paramsOrEmpty (some fs))] "params" = some (Json.obj fs)
    rw [paramsOrEmpty_some]
    rfl

/-- Witness for C9 at a concrete call with the parameter argument
omitted. -/
theorem spec_c9_default_params_witness :
    call_daemon ⟨true, oneChunk "null\n"⟩ "w9" "health" none 2 =
      some ⟨some (requestLine "w9" "health" none), Except.ok Json.null, true⟩ ∧
    (⟨some (requestLine "w9" "health" none), Except.ok Json.null, true⟩ : CallTrace).sent =
      some (Json.serialize (requestJson "w9" "health" none) ++ "\n") ∧
    pyGet (requestJson "w9" "health" none) "params" = some (Json.obj []) :=
  ⟨rfl,
   (spec_c9_default_params ⟨true, oneChunk "null\n"⟩ "w9" "health" 2 _ rfl rfl).1,
   (spec_c9_default_params ⟨true, oneChunk "null\n"⟩ "w9" "health" 2 _ rfl rfl).2.1⟩

/-- C5: when no process is listening at the endpoint, every call fails
with the unavailable error, nothing is transmitted, and that failure kind
is distinct from the transport and decode kinds and from every successful
(operation-level) outcome. -/
theorem spec_c5_unavailable (srv : Server) (id method : String)
    (params : Option (List (String × Json))) (fuel : Nat)
    (hl : srv.listening = false) :
    call_daemon srv id method params fuel =
      some ⟨none, Except.error DaemonError.unavailable, true⟩ ∧
    DaemonError.unavailable ≠ DaemonError.transport ∧
    DaemonError.unavailable ≠ DaemonError.malformed ∧
    ∀ env : Json,
      (Except.error DaemonError.unavailable : Except DaemonError Json) ≠ Except.ok env := by
  refine ⟨?_, fun h => DaemonError.noConfusion h, fun h => DaemonError.noConfusion h,
    fun env h => Except.noConfusion h⟩
  unfold call_daemon
  rw [if_pos hl]

/-- Witness for C5 at a concrete non-listening server. -/
theorem spec_c5_unavailable_witness :
    (⟨false, oneChunk ""⟩ : Server).listening = false ∧
    call_daemon ⟨false, oneChunk ""⟩ "w5" "fly.apps" none 2 =
      some ⟨none, Except.error DaemonError.unavailable, true⟩ :=
  ⟨rfl, (spec_c5_unavailable ⟨false, oneChunk ""⟩ "w5" "fly.apps" none 2 rfl).1⟩

/-- C7: every completed call — successful return, connect failure, or
decode failure — ends with the socket closed. -/
theorem spec_c7_socket_closed (srv : Server) (id method : String)
    (params : Option (List (String × Json))) (fuel : Nat) (t : CallTrace)
    (hc : call_daemon srv id method params fuel = some t) :
    t.sockClosed = true := by
  unfold call_daemon at hc
  by_cases hl : srv.listening = false
  · rw [if_pos hl] at hc
    cases hc
    rfl
  · rw [if_neg hl] at hc
    rcases hrl : readLoopSteps srv.recv fuel 0 "" with _ | buf
    · simp only [hrl] at hc
      exact Option.noConfusion hc
    · simp only [hrl] at hc
      rcases hj : json_loads (pyStrip buf) with _ | env <;> simp only [hj] at hc <;>
        cases hc <;> rfl

/-- Witness for C7 at a concrete call that fails to decode (the socket is
closed nevertheless). -/
theorem spec_c7_socket_closed_witness :
    call_daemon ⟨true, oneChunk "garbage\n"⟩ "w7" "health" none 2 =
      some ⟨some (requestLine "w7" "health" none), Except.error DaemonError.malformed, true⟩ ∧
    (⟨some (requestLine "w7" "health" none), Except.error DaemonError.malformed,
      true⟩ : CallTrace).sockClosed = true :=
  ⟨rfl, spec_c7_socket_closed ⟨true, oneChunk "garbage\n"⟩ "w7" "health" none 2 _ rfl⟩

/-- C10: whenever the received record parses as structured data, the call
returns the entire parsed envelope — whatever the value (or absence) of
`ok` — and never an error; interpretation of `ok` is left to the caller. -/
theorem spec_c10_whole_envelope (srv : Server) (id method : String)
    (params : Option (List (String × Json))) (fuel : Nat) (buf : String) (env : Json)
    (t : CallTrace)
    (hl : srv.listening = true)
    (hr : readLoopSteps srv.recv fuel 0 "" = some buf)
    (hj : json_loads (pyStrip buf) = some env)
    (hc : call_daemon srv id method params fuel = some t) :
    t.outcome = Except.ok env := by
  rw [call_daemon_ok srv id method params fuel buf env hl hr hj] at hc
  cases hc
  rfl

/-- Witness for C10 at a response whose `ok` field is false: the whole
envelope is still returned, with no error raised. -/
theorem spec_c10_whole_envelope_witness :
    readLoopSteps (oneChunk "\x7b\"ok\": false\x7d\n") 2 0 "" = some "\x7b\"ok\": false\x7d\n" ∧
    json_loads (pyStrip "\x7b\"ok\": false\x7d\n") = some (Json.obj [("ok", Json.bool false)]) ∧
    call_daemon ⟨true, oneChunk "\x7b\"ok\": false\x7d\n"⟩ "w10" "health" none 2 =
      some ⟨some (requestLine "w10" "health" none),
            Except.ok (Json.obj [("ok", Json.bool false)]), true⟩ ∧
    (⟨some (requestLine "w10" "health" none),
      Except.ok (Json.obj [("ok", Json.bool false)]), true⟩ : CallTrace).outcome =
      Except.ok (Json.obj [("ok", Json.bool false)]) :=
  ⟨rfl, rfl, rfl,
   spec_c10_whole_envelope ⟨true, oneChunk "\x7b\"ok\": false\x7d\n"⟩ "w10" "health" none 2
     "\x7b\"ok\": false\x7d\n" (Json.obj [("ok", Json.bool false)]) _ rfl rfl rfl rfl⟩

/-- C2: a well-formed response with a truthy `ok` reaches the caller as
the unchanged envelope, and the caller-side branch selects the success
path carrying exactly the server-sent `result` value. -/
theorem spec_c2_result_passthrough (srv : Server) (id method : String)
    (params : Option (List (String × Json))) (fuel : Nat) (buf : String) (env rv : Json)
    (t : CallTrace)
    (hl : srv.listening = true)
    (hr : readLoopSteps srv.recv fuel 0 "" = some buf)
    (hj : json_loads (pyStrip buf) = some env)
    (hok : truthyOpt (pyGet env "ok") = true)
    (hres : pyGet env "result" = some rv)
    (hc : call_daemon srv id method params fuel = some t) :
    t.outcome = Except.ok env ∧
    classifyResponse t.outcome = InvokeOutcome.success (some rv) := by
  have ho : t.outcome = Except.ok env := by
    rw [call_daemon_ok srv id method params fuel buf env hl hr hj] at hc
    cases hc
    rfl
  refine ⟨ho, ?_⟩
  rw [ho]
  simp only [classifyResponse]
  rw [if_pos hok, hres]

/-- Witness for C2: the server sends
`("ok": true, "result": ("apps": []))` and the apps invocation observes a
success whose apps list is empty, with no error field present. -/
theorem spec_c2_result_passthrough_witness :
    json_loads (pyStrip "\x7b\"ok\": true, \"result\": \x7b\"apps\": []\x7d\x7d\n") =
      some (Json.obj [("ok", Json.bool true), ("result", Json.obj [("apps", Json.arr [])])]) ∧
    classifyResponse (⟨some (requestLine "w2" "fly.apps" (some [])),
        Except.ok (Json.obj [("ok", Json.bool true), ("result", Json.obj [("apps", Json.arr [])])]),
        true⟩ : CallTrace).outcome =
      InvokeOutcome.success (some (Json.obj [("apps", Json.arr [])])) ∧
    pyGet (Json.obj [("apps", Json.arr [])]) "apps" = some (Json.arr []) ∧
    pyGet (Json.obj [("ok", Json.bool true), ("result", Json.obj [("apps", Json.arr [])])])
      "error" = none :=
  ⟨rfl,
   (spec_c2_result_passthrough
     ⟨true, oneChunk "\x7b\"ok\": true, \"result\": \x7b\"apps\": []\x7d\x7d\n"⟩
     "w2" "fly.apps" (some []) 2 "\x7b\"ok\": true, \"result\": \x7b\"apps\": []\x7d\x7d\n"
     (Json.obj [("ok", Json.bool true), ("result", Json.obj [("apps", Json.arr [])])])
     (Json.obj [("apps", Json.arr [])]) _ rfl rfl rfl rfl rfl rfl).2,
   rfl, rfl⟩

/-- C3: a well-formed response with a falsy `ok` reaches the caller as an
operation-level failure carrying the daemon-supplied error string
verbatim, and that outcome is not a protocol failure of any kind. -/
theorem spec_c3_operation_error (srv : Server) (id method : String)
    (params : Option (List (String × Json))) (fuel : Nat) (buf : String) (env : Json)
    (msg : String) (t : CallTrace)
    (hl : srv.listening = true)
    (hr : readLoopSteps srv.recv fuel 0 "" = some buf)
    (hj : json_loads (pyStrip buf) = some env)
    (hok : truthyOpt (pyGet env "ok") = false)
    (herr : pyGet env "error" = some (Json.str msg))
    (hc : call_daemon srv id method params fuel = some t) :
    classifyResponse t.outcome = InvokeOutcome.opFailure (some (Json.str msg)) ∧
    ∀ e : DaemonError, classifyResponse t.outcome ≠ InvokeOutcome.protocolFailure e := by
  have ho : t.outcome = Except.ok env := by
    rw [call_daemon_ok srv id method params fuel buf env hl hr hj] at hc
    cases hc
    rfl
  have hcl : classifyResponse t.outcome = InvokeOutcome.opFailure (some (Json.str msg)) := by
    rw [ho]
    simp only [classifyResponse]
    rw [if_neg (show ¬truthyOpt (pyGet env "ok") = true by rw [hok]; exact Bool.false_ne_true),
        herr]
  refine ⟨hcl, fun e h => ?_⟩
  rw [hcl] at h
  exact InvokeOutcome.noConfusion h

/-- Witness for C3: the server sends `("ok": false, "error": "not found")`
and the caller observes the operation failure carrying exactly the string
"not found". -/
theorem spec_c3_operation_error_witness :
    json_loads (pyStrip "\x7b\"ok\": false, \"error\": \"not found\"\x7d\n") =
      some (Json.obj [("ok", Json.bool false), ("error", Json.str "not found")]) ∧
    classifyResponse (⟨some (requestLine "w3" "fly.status" (some [("app", Json.str "x")])),
        Except.ok (Json.obj [("ok", Json.bool false), ("error", Json.str "not found")]),
        true⟩ : CallTrace).outcome =
      InvokeOutcome.opFailure (some (Json.str "not found")) :=
  ⟨rfl,
   (spec_c3_operation_error
     ⟨true, oneChunk "\x7b\"ok\": false, \"error\": \"not found\"\x7d\n"⟩
     "w3" "fly.status" (some [("app", Json.str "x")]) 2
     "\x7b\"ok\": false, \"error\": \"not found\"\x7d\n"
     (Json.obj [("ok", Json.bool false), ("error", Json.str "not found")])
     "not found" _ rfl rfl rfl rfl rfl rfl).1⟩

/-- C4 (amended): a completed exchange fails with the decode error exactly
when the received bytes are not valid structured data; a record that
parses but lacks the `ok` field is returned to the caller unchanged, not
rejected (its missing `ok` is then treated as a falsy outcome by the
callers). -/
theorem spec_c4_decode_failure (srv : Server) (id method : String)
    (params : Option (List (String × Json))) (fuel : Nat) (buf : String) (t : CallTrace)
    (hl : srv.listening = true)
    (hr : readLoopSteps srv.recv fuel 0 "" = some buf)
    (hc : call_daemon srv id method params fuel = some t) :
    (t.outcome = Except.error DaemonError.malformed ↔ json_loads (pyStrip buf) = none) := by
  rcases hj : json_loads (pyStrip buf) with _ | env
  · rw [call_daemon_malformed srv id method params fuel buf hl hr hj] at hc
    cases hc
    exact ⟨fun _ => rfl, fun _ => rfl⟩
  · rw [call_daemon_ok srv id method params fuel buf env hl hr hj] at hc
    cases hc
    constructor
    · intro h
      exact Except.noConfusion h
    · intro h
      exact Option.noConfusion h

/-- Counterexample to C4 as stated: the bytes `("x": 1)` followed by a
newline parse fine but contain no `ok` field; the call nevertheless
returns the parsed record instead of rejecting it. -/
theorem spec_c4_decode_failure_counterexample :
    call_daemon ⟨true, oneChunk "\x7b\"x\": 1\x7d\n"⟩ "c4" "health" none 2 =
      some ⟨some (requestLine "c4" "health" none),
            Except.ok (Json.obj [("x", Json.num 1)]), true⟩ ∧
    pyGet (Json.obj [("x", Json.num 1)]) "ok" = none :=
  ⟨rfl, rfl⟩

/-- Witness for C4 (amended) at a concrete undecodable response. -/
theorem spec_c4_decode_failure_witness :
    readLoopSteps (oneChunk "nonsense\n") 2 0 "" = some "nonsense\n" ∧
    call_daemon ⟨true, oneChunk "nonsense\n"⟩ "w4" "health" none 2 =
      some ⟨some (requestLine "w4" "health" none), Except.error DaemonError.malformed, true⟩ ∧
    ((⟨some (requestLine "w4" "health" none), Except.error DaemonError.malformed,
        true⟩ : CallTrace).outcome = Except.error DaemonError.malformed ↔
      json_loads (pyStrip "nonsense\n") = none) :=
  ⟨rfl, rfl,
   spec_c4_decode_failure ⟨true, oneChunk "nonsense\n"⟩ "w4" "health" none 2
     "nonsense\n" _ rfl rfl rfl⟩

/-- C6 (amended): whenever the stream eventually delivers a newline byte
or eventually closes, the read loop — and with it the whole call —
terminates; the completed call ends either in the decode error (when the
accumulated bytes do not parse) or in a successful parsed envelope (when
they happen to form a complete record even without a newline terminator);
in no case does it hang, and no other error kind arises. -/
theorem spec_c6_read_terminates (srv : Server) (id method : String)
    (params : Option (List (String × Json)))
    (hl : srv.listening = true)
    (h : ∃ n, srv.recv n = "" ∨ hasNL (srv.recv n) = true) :
    ∃ fuel t, call_daemon srv id method params fuel = some t ∧
      (t.outcome = Except.error DaemonError.malformed ∨
       ∃ env, t.outcome = Except.ok env) := by
  obtain ⟨n, hn⟩ := h
  have hr0 : srv.recv (0 + n) = "" ∨ hasNL (srv.recv (0 + n)) = true := by
    rw [Nat.zero_add]
    exact hn
  obtain ⟨buf, hbuf⟩ := readLoop_reaches srv.recv n 0 "" hr0
  rcases hj : json_loads (pyStrip buf) with _ | env
  · exact ⟨n + 1, _, call_daemon_malformed srv id method params (n + 1) buf hl hbuf hj,
      Or.inl rfl⟩
  · exact ⟨n + 1, _, call_daemon_ok srv id method params (n + 1) buf env hl hbuf hj,
      Or.inr ⟨env, rfl⟩⟩

/-- Witness for C6 (amended): a server that closes the stream at once; the
call terminates with the decode error rather than hanging. -/
theorem spec_c6_read_terminates_witness :
    (⟨true, fun _ => ""⟩ : Server).listening = true ∧
    ((⟨true, fun _ => ""⟩ : Server).recv 0 = "" ∨
      hasNL ((⟨true, fun _ => ""⟩ : Server).recv 0) = true) ∧
    (∃ fuel t, call_daemon ⟨true, fun _ => ""⟩ "w6" "health" none fuel = some t ∧
      (t.outcome = Except.error DaemonError.malformed ∨
       ∃ env, t.outcome = Except.ok env)) :=
  ⟨rfl, Or.inl rfl,
   spec_c6_read_terminates ⟨true, fun _ => ""⟩ "w6" "health" none rfl ⟨0, Or.inl rfl⟩⟩

/-- Counterexample to C6 as stated: the server sends the complete record
`("ok": true)` with no newline terminator and closes the stream; the call
terminates with a successful parsed envelope, not with a transport or
decode error. -/
theorem spec_c6_read_terminates_counterexample :
    call_daemon ⟨true, oneChunk "\x7b\"ok\": true\x7d"⟩ "c6" "health" none 2 =
      some ⟨some (requestLine "c6" "health" none),
            Except.ok (Json.obj [("ok", Json.bool true)]), true⟩ ∧
    hasNL "\x7b\"ok\": true\x7d" = false ∧
    oneChunk "\x7b\"ok\": true\x7d" 1 = "" ∧
    (Except.ok (Json.obj [("ok", Json.bool true)]) : Except DaemonError Json) ≠
      Except.error DaemonError.unavailable ∧
    (Except.ok (Json.obj [("ok", Json.bool true)]) : Except DaemonError Json) ≠
      Except.error DaemonError.transport ∧
    (Except.ok (Json.obj [("ok", Json.bool true)]) : Except DaemonError Json) ≠
      Except.error DaemonError.malformed :=
  ⟨rfl, rfl, rfl, fun h => Except.noConfusion h, fun h => Except.noConfusion h,
   fun h => Except.noConfusion h⟩

/-- C8 (amended): across any number of sequential calls in one process
run, the generated correlation identifiers are pairwise distinct whenever
the underlying 128-bit random draws remain pairwise distinct after the
version/variant masking of `uuid4` — which holds with overwhelming
probability but not unconditionally (see the counterexample). -/
theorem spec_c8_distinct_ids (e : Nat → Nat) (N : Nat)
    (hmask : ∀ i j, i < N → j < N → i ≠ j → maskUUID (e i) ≠ maskUUID (e j)) :
    ∀ i j, i < N → j < N → i ≠ j → nthCallId e i ≠ nthCallId e j := by
  intro i j hi hj hne h
  exact hmask i j hi hj hne (uuid4_eq_imp_mask_eq _ _ h)

/-- Witness for C8 (amended) on a concrete entropy stream whose first two
masked draws differ: the first two call identifiers differ. -/
theorem spec_c8_distinct_ids_witness :
    nthCallId (fun n => n) 0 ≠ nthCallId (fun n => n) 1 := by
  have hm : ∀ i j : Nat, i < 2 → j < 2 → i ≠ j → maskUUID ((fun n => n) i) ≠
      maskUUID ((fun n => n) j) := by
    intro i j hi hj hne
    interval_cases i <;> interval_cases j <;>
      first
        | exact absurd rfl hne
        | decide
  exact spec_c8_distinct_ids (fun n => n) 2 hm 0 1 (by decide) (by decide) (by decide)

/-- Counterexample to C8 as stated: an entropy stream whose draws 0 and
`2 ^ 77` differ, yet — bit 77 lying in the version nibble that masking
overwrites — the two sequential calls receive the same identifier, so
pairwise distinctness is not unconditional. -/
theorem spec_c8_distinct_ids_counterexample :
    nthCallId (fun i => if i = 0 then 0 else 2 ^ 77) 0 =
      nthCallId (fun i => if i = 0 then 0 else 2 ^ 77) 1 ∧
    (0 : Nat) ≠ 1 ∧
    (fun i => if i = 0 then (0 : Nat) else 2 ^ 77) 0 ≠
      (fun i => if i = 0 then (0 : Nat) else 2 ^ 77) 1 :=
  ⟨by decide, by decide, by decide⟩
